import Mathlib

/-!
Shallow embedding of the real-time WebSocket layer of the `socialc`
repository (`src/backend/routes.ts`).

The embedded code is the `wss.on('connection')` handler (lines 438-506):
its `ws.on('message')` frame handler, its `ws.on('close')` handler, and the
module-level helpers `connectedClients` (line 14, a JS `Map` from user id to
socket) and `broadcastToClients` (lines 509-516).

Modelling conventions:
* A connection (`ws`) is identified by a `ConnId` (`Nat`); its mutable
  `userId` field is carried explicitly as an `Option String`.
* The registry `connectedClients` is an insertion-ordered association list
  (`RegMap`), with `mapGet` / `mapSet` / `mapDelete` mirroring JS
  `Map.get` / `Map.set` / `Map.delete` (keys are unique in a JS `Map`;
  `regWF` states that invariant and is shown to be preserved).
* Collaborators are an explicit environment `Env`:
  `verify` is `AuthenticationService.verifyAccessToken` (returns the JWT
  payload's `userId`, or fails); `objectIdOk s` says whether
  `new ObjectId(s)` succeeds (it throws on invalid input); `freshOid` is the
  id generated by `new ObjectId(undefined)`; `store` is
  `mongoService.createMessage` (returns the persisted record, or fails).
  The wall-clock `createdAt` timestamp is not modelled.
* JS truthiness of `ws.userId` (the empty string is falsy) is modelled
  explicitly where the source tests `ws.userId` as a boolean.
* One inbound event is either a JSON parse failure (`JSON.parse` threw) or
  the parsed object, of which the handler reads the fields
  `type, token, receiverId, conversationId, content, messageType`; a field
  absent from the JSON is `none`.
* The handler's result is the connection's new `userId` field, the new
  registry, the ordered list of `ws.send` calls (connection, frame), and the
  list of `mongoService.createMessage` calls attempted.
-/

/-- Identifier of one accepted WebSocket connection. -/
abbrev ConnId := Nat

/-- The `connectedClients` map: user id keys to connection values, in
insertion order, as a JS `Map` iterates them. -/
abbrev RegMap := List (String × ConnId)

/-- `Map.get k`: value at the first (in a JS `Map`: only) entry for `k`. -/
def mapGet : RegMap → String → Option ConnId
  | [], _ => none
  | p :: rest, k => if p.1 = k then some p.2 else mapGet rest k

/-- `Map.set k v`: overwrite the entry for `k` in place, else append. -/
def mapSet : RegMap → String → ConnId → RegMap
  | [], k, v => [(k, v)]
  | p :: rest, k, v => if p.1 = k then (k, v) :: rest else p :: mapSet rest k v

/-- `Map.delete k`: drop the entry for `k`, if present. -/
def mapDelete : RegMap → String → RegMap
  | [], _ => []
  | p :: rest, k => if p.1 = k then rest else p :: mapDelete rest k

/-- Key uniqueness, which a JS `Map` guarantees by construction. -/
def regWF (m : RegMap) : Prop := (m.map Prod.fst).Nodup

/-- The record handed to `mongoService.createMessage` (sans `createdAt`).
`senderId`/`receiverId` are the strings wrapped by `new ObjectId(...)`. -/
structure MessageData where
  senderId : String
  receiverId : String
  conversationId : Option String
  content : Option String
  msgType : String
deriving Repr, DecidableEq

/-- The persisted message record returned by `mongoService.createMessage`;
its shape is up to the store, which assigns the canonical id. -/
structure StoredMessage where
  id : String
  senderId : String
  receiverId : String
  conversationId : Option String
  content : Option String
  msgType : String
deriving Repr, DecidableEq

/-- The collaborators the handler calls out to. -/
structure Env where
  /-- `verifyAccessToken`: token to `userId` of the decoded payload, or a
  thrown verification error (`none`); `none` input is an absent field. -/
  verify : Option String → Option String
  /-- Whether `new ObjectId(s)` succeeds on the string `s`. -/
  objectIdOk : String → Bool
  /-- The id `new ObjectId(undefined)` generates. -/
  freshOid : String
  /-- `mongoService.createMessage`: persisted record, or a thrown store
  error (`none`). -/
  store : MessageData → Option StoredMessage

/-- The fields of a parsed inbound frame the handler reads. -/
structure FrameData where
  type : Option String
  token : Option String
  receiverId : Option String
  conversationId : Option String
  content : Option String
  messageType : Option String
deriving Repr, DecidableEq

/-- One inbound WebSocket message event: `JSON.parse` threw, or produced a
value with the fields of `FrameData`. -/
inductive Inbound where
  | parseFail
  | parsed (d : FrameData)
deriving Repr, DecidableEq

/-- Frames the server pushes with `ws.send` (each is serialized at the call
site in the source; direct frames are kept structured here). -/
inductive OutFrame where
  | authenticated (success : Bool)
  | authenticationError (message : String)
  | newMessage (data : StoredMessage)
  | messageSent (data : StoredMessage)
  | error (message : String)
deriving Repr, DecidableEq

/-- Result of running the `ws.on('message')` handler once: the connection's
`userId` field, the registry, the `ws.send` calls in order, and the
`createMessage` calls attempted. -/
structure HandleResult where
  userId : Option String
  registry : RegMap
  sends : List (ConnId × OutFrame)
  persisted : List MessageData
deriving Repr, DecidableEq

/-- JS `a || b` on an optional string field (absent and `""` are falsy),
as in `data.messageType || 'text'`. -/
def jsOrElse (o : Option String) (dflt : String) : String :=
  match o with
  | some s => if s = "" then dflt else s
  | none => dflt

/-- The `messageData` object built in the `send_message` branch from the
sender id `sid`, receiver id `rid`, and the frame's remaining fields
(`type: data.messageType || 'text'`; `createdAt` not modelled). -/
def mdOf (sid rid : String) (d : FrameData) : MessageData :=
  { senderId := sid, receiverId := rid, conversationId := d.conversationId,
    content := d.content, msgType := jsOrElse d.messageType "text" }

/-- The `send_message` branch (routes.ts lines 463-490), entered when
`data.type === 'send_message' && ws.userId` held, with `sid` the truthy
`ws.userId`. `new ObjectId` on the sender and receiver strings runs before
`createMessage`; any throw lands in the catch block, which sends the
generic `error` frame. `new ObjectId(undefined)` (absent `receiverId`)
generates a fresh id, and `connectedClients.get(undefined)` finds nothing. -/
def sendMessageBranch (env : Env) (self : ConnId) (sid : String)
    (reg : RegMap) (d : FrameData) : HandleResult :=
  if env.objectIdOk sid then
    match d.receiverId with
    | some rid =>
      if env.objectIdOk rid then
        match env.store (mdOf sid rid d) with
        | some m =>
          ⟨some sid, reg,
           (match mapGet reg rid with
            | some rc => [(rc, OutFrame.newMessage m)]
            | none => []) ++ [(self, OutFrame.messageSent m)],
           [mdOf sid rid d]⟩
        | none =>
          ⟨some sid, reg, [(self, OutFrame.error "Invalid message format")],
           [mdOf sid rid d]⟩
      else
        ⟨some sid, reg, [(self, OutFrame.error "Invalid message format")], []⟩
    | none =>
      match env.store (mdOf sid env.freshOid d) with
      | some m =>
        ⟨some sid, reg, [(self, OutFrame.messageSent m)], [mdOf sid env.freshOid d]⟩
      | none =>
        ⟨some sid, reg, [(self, OutFrame.error "Invalid message format")],
         [mdOf sid env.freshOid d]⟩
  else
    ⟨some sid, reg, [(self, OutFrame.error "Invalid message format")], []⟩

/-- The `ws.on('message')` handler (routes.ts lines 441-498). Branches on
`data.type`; `authenticate` binds the identity, `send_message` requires a
truthy `ws.userId`; every other parsed frame falls through both branches
and is silently ignored; a `JSON.parse` throw reaches the catch block and
produces the generic `error` frame. -/
def handleMessage (env : Env) (self : ConnId) (userId : Option String)
    (reg : RegMap) (inb : Inbound) : HandleResult :=
  match inb with
  | Inbound.parseFail =>
    ⟨userId, reg, [(self, OutFrame.error "Invalid message format")], []⟩
  | Inbound.parsed d =>
    if d.type = some "authenticate" then
      match env.verify d.token with
      | some uid =>
        ⟨some uid, mapSet reg uid self,
         [(self, OutFrame.authenticated true)], []⟩
      | none =>
        ⟨userId, reg,
         [(self, OutFrame.authenticationError "Invalid token")], []⟩
    else if d.type = some "send_message" then
      match userId with
      | some sid =>
        if sid = "" then ⟨userId, reg, [], []⟩
        else sendMessageBranch env self sid reg d
      | none => ⟨userId, reg, [], []⟩
    else
      ⟨userId, reg, [], []⟩

/-- The `ws.on('close')` handler (routes.ts lines 500-505): when
`ws.userId` is truthy, `connectedClients.delete(ws.userId)` — keyed by the
identity alone, with no check of which connection the entry holds. -/
def handleClose (userId : Option String) (reg : RegMap) : RegMap :=
  match userId with
  | some uid => if uid = "" then reg else mapDelete reg uid
  | none => reg

/-- JSON values, for `JSON.stringify` of broadcast payloads. -/
inductive Json where
  | null
  | bool (b : Bool)
  | num (n : Int)
  | str (s : String)
  | arr (elems : List Json)
  | obj (fields : List (String × Json))

/-- Escaping of one character inside a JSON string literal. -/
def escapeJsonChar (c : Char) : String :=
  if c = '"' then "\\\"" else if c = '\\' then "\\\\" else String.singleton c

/-- A JSON string literal. -/
def quoteJson (s : String) : String :=
  "\"" ++ String.join (s.toList.map escapeJsonChar) ++ "\""

mutual

/-- `JSON.stringify`. -/
def Json.stringify : Json → String
  | Json.null => "null"
  | Json.bool true => "true"
  | Json.bool false => "false"
  | Json.num n => toString n
  | Json.str s => quoteJson s
  | Json.arr es => "[" ++ stringifyElems es ++ "]"
  | Json.obj fs => "\x7b" ++ stringifyFields fs ++ "\x7d"

/-- Comma-separated serialization of JSON array elements. -/
def stringifyElems : List Json → String
  | [] => ""
  | [j] => Json.stringify j
  | j :: rest => Json.stringify j ++ "," ++ stringifyElems rest

/-- Comma-separated serialization of JSON object fields. -/
def stringifyFields : List (String × Json) → String
  | [] => ""
  | [(k, v)] => quoteJson k ++ ":" ++ Json.stringify v
  | (k, v) :: rest =>
    quoteJson k ++ ":" ++ Json.stringify v ++ "," ++ stringifyFields rest

end

/-- `WebSocket.OPEN` of the `ws` library. -/
def wsOPEN : Nat := 1

/-- `broadcastToClients` (routes.ts lines 509-516): stringify `{type, data}`
once, then `connectedClients.forEach`, sending that one string to each
client whose `readyState === WebSocket.OPEN`; the rest are skipped.
`readyState` gives each connection's current transport state. The result
lists the `client.send` calls in iteration order. -/
def broadcastToClients (readyState : ConnId → Nat) (reg : RegMap)
    (type : String) (data : Json) : List (ConnId × String) :=
  let message := Json.stringify (Json.obj [("type", Json.str type), ("data", data)])
  (reg.filter (fun p => readyState p.2 == wsOPEN)).map (fun p => (p.2, message))

/-! Lemmas about the JS-`Map` model. -/

theorem mapGet_mapSet_self (m : RegMap) (k : String) (v : ConnId) :
    mapGet (mapSet m k v) k = some v := by
  induction m with
  | nil => simp [mapSet, mapGet]
  | cons p rest ih =>
    by_cases h : p.1 = k
    · simp [mapSet, h, mapGet]
    · simp [mapSet, h, mapGet, ih]

theorem mapGet_mapSet_ne (m : RegMap) (k k' : String) (v : ConnId)
    (h : k' ≠ k) : mapGet (mapSet m k v) k' = mapGet m k' := by
  induction m with
  | nil => simp [mapSet, mapGet, Ne.symm h]
  | cons p rest ih =>
    by_cases hk : p.1 = k
    · subst hk
      simp [mapSet, mapGet, Ne.symm h, h]
    · simp only [mapSet, if_neg hk, mapGet]
      by_cases hk' : p.1 = k'
      · simp [hk']
      · simp [hk', ih]

theorem mem_keys_mapSet (m : RegMap) (k a : String) (v : ConnId) :
    a ∈ (mapSet m k v).map Prod.fst ↔ a ∈ m.map Prod.fst ∨ a = k := by
  induction m with
  | nil => simp [mapSet]
  | cons p rest ih =>
    by_cases h : p.1 = k
    · subst h
      have hset : mapSet (p :: rest) p.1 v = (p.1, v) :: rest := by
        simp [mapSet]
      rw [hset]
      simp only [List.map_cons, List.mem_cons]
      tauto
    · simp only [mapSet, if_neg h, List.map_cons, List.mem_cons, ih]
      tauto

theorem regWF_mapSet (m : RegMap) (k : String) (v : ConnId)
    (h : regWF m) : regWF (mapSet m k v) := by
  induction m with
  | nil => simp [regWF, mapSet]
  | cons p rest ih =>
    simp only [regWF, List.map_cons, List.nodup_cons] at h
    by_cases hk : p.1 = k
    · subst hk
      simpa [mapSet, regWF, List.nodup_cons] using h
    · simp only [mapSet, if_neg hk, regWF, List.map_cons, List.nodup_cons]
      refine ⟨?_, ih h.2⟩
      intro hmem
      rcases (mem_keys_mapSet rest k p.1 v).mp hmem with h1 | h2
      · exact h.1 h1
      · exact hk h2

theorem mapDelete_sublist (m : RegMap) (k : String) :
    (mapDelete m k).Sublist m := by
  induction m with
  | nil => simp [mapDelete]
  | cons p rest ih =>
    by_cases h : p.1 = k
    · simp only [mapDelete, if_pos h]
      exact List.sublist_cons_self p rest
    · simp only [mapDelete, if_neg h]
      exact ih.cons₂ p

theorem regWF_mapDelete (m : RegMap) (k : String) (h : regWF m) :
    regWF (mapDelete m k) :=
  List.Nodup.sublist ((mapDelete_sublist m k).map Prod.fst) h

theorem mapGet_eq_none_of_not_mem (m : RegMap) (k : String)
    (h : k ∉ m.map Prod.fst) : mapGet m k = none := by
  induction m with
  | nil => rfl
  | cons p rest ih =>
    simp only [List.map_cons, List.mem_cons, not_or] at h
    have hne : ¬ p.1 = k := fun hp => h.1 hp.symm
    simp only [mapGet, if_neg hne]
    exact ih h.2

theorem mapGet_mapDelete_self (m : RegMap) (k : String) (h : regWF m) :
    mapGet (mapDelete m k) k = none := by
  induction m with
  | nil => rfl
  | cons p rest ih =>
    simp only [regWF, List.map_cons, List.nodup_cons] at h
    by_cases hk : p.1 = k
    · subst hk
      simp only [mapDelete, if_pos rfl]
      exact mapGet_eq_none_of_not_mem rest p.1 h.1
    · simp only [mapDelete, if_neg hk, mapGet, if_neg hk]
      exact ih h.2

theorem mapGet_mapDelete_ne (m : RegMap) (k k' : String)
    (h : k' ≠ k) : mapGet (mapDelete m k) k' = mapGet m k' := by
  induction m with
  | nil => rfl
  | cons p rest ih =>
    by_cases hk : p.1 = k
    · subst hk
      have hdel : mapDelete (p :: rest) p.1 = rest := by
        simp [mapDelete]
      have hne : ¬ p.1 = k' := fun hp => h hp.symm
      rw [hdel]
      simp [mapGet, hne]
    · simp only [mapDelete, if_neg hk, mapGet]
      by_cases hk' : p.1 = k'
      · simp [hk']
      · simp [hk', ih]

/-! Concrete fixtures for witness runs. -/

/-- A 24-hex-character user id. -/
def hexA : String := "aaaaaaaaaaaaaaaaaaaaaaaa"

/-- A second 24-hex-character user id. -/
def hexB : String := "bbbbbbbbbbbbbbbbbbbbbbbb"

/-- `ObjectId` validity used by the demo environment: 24 hexadecimal
characters. -/
def isHex24 (s : String) : Bool :=
  s.length == 24 && s.toList.all (fun c => c.isDigit || ('a' ≤ c && c ≤ 'f'))

/-- A demo collaborator environment: two known tokens, and a store that
persists any record under the id `"m1"`. -/
def demoEnv : Env where
  verify := fun t =>
    if t = some "tokA" then some hexA
    else if t = some "tokB" then some hexB
    else none
  objectIdOk := isHex24
  freshOid := "cccccccccccccccccccccccc"
  store := fun md =>
    some { id := "m1", senderId := md.senderId, receiverId := md.receiverId,
           conversationId := md.conversationId, content := md.content,
           msgType := md.msgType }

/-- A parsed `authenticate` frame carrying token `tok` (the handler reads
no other field of it). -/
def authFrameData (tok : Option String) : FrameData :=
  { type := some "authenticate", token := tok, receiverId := none,
    conversationId := none, content := none, messageType := none }

/-- A parsed `send_message` frame with content `"hi"` addressed to `hexB`. -/
def demoSendHi : FrameData :=
  { type := some "send_message", token := none, receiverId := some hexB,
    conversationId := some "c1", content := some "hi", messageType := none }

/-- A parsed `send_message` frame whose content is whitespace only. -/
def demoSendBlank : FrameData :=
  { type := some "send_message", token := none, receiverId := some hexB,
    conversationId := some "c1", content := some "   ", messageType := none }

/-- A parsed frame with an unrecognized type tag. -/
def demoBogusFrame : FrameData :=
  { type := some "bogus", token := none, receiverId := none,
    conversationId := none, content := none, messageType := none }

/-- A parsed `typing_start` frame (its `targetUserId` payload field is not
among the fields the handler ever reads, hence not modelled). -/
def demoTypingStartFrame : FrameData :=
  { type := some "typing_start", token := none, receiverId := none,
    conversationId := none, content := none, messageType := none }

/-- A parsed `typing_stop` frame. -/
def demoTypingStopFrame : FrameData :=
  { type := some "typing_stop", token := none, receiverId := none,
    conversationId := none, content := none, messageType := none }

/-- What `demoEnv.store` returns for `demoSendHi` sent by `hexA`. -/
def demoStored : StoredMessage :=
  { id := "m1", senderId := hexA, receiverId := hexB,
    conversationId := some "c1", content := some "hi", msgType := "text" }

/-! Shared handler lemmas. -/

/-- A parsed frame whose type is neither `authenticate` nor `send_message`
falls through both branches of the handler: nothing happens. -/
theorem handleMessage_unrecognized (env : Env) (self : ConnId)
    (userId : Option String) (reg : RegMap) (d : FrameData)
    (h1 : d.type ≠ some "authenticate") (h2 : d.type ≠ some "send_message") :
    handleMessage env self userId reg (Inbound.parsed d)
      = ⟨userId, reg, [], []⟩ := by
  simp only [handleMessage, if_neg h1, if_neg h2]

/-- The registry is never mutated inside the `send_message` branch. -/
theorem sendMessageBranch_registry (env : Env) (self : ConnId) (sid : String)
    (reg : RegMap) (d : FrameData) :
    (sendMessageBranch env self sid reg d).registry = reg := by
  by_cases h1 : env.objectIdOk sid
  · simp only [sendMessageBranch, if_pos h1]
    cases hr : d.receiverId with
    | some rid =>
      by_cases h2 : env.objectIdOk rid
      · simp only [if_pos h2]
        cases env.store (mdOf sid rid d) <;> rfl
      · simp only [if_neg h2]
    | none =>
      cases env.store (mdOf sid env.freshOid d) <;> rfl
  · simp only [sendMessageBranch, if_neg h1]

/-! Claim theorems. -/

/-- Claim C1, counterexample: an unauthenticated connection (conn 0,
`userId` unbound, empty registry) sends a well-formed `send_message` frame.
The handler produces NO outbound frame at all — contradicting the claim
that such a connection "receives an error response". (It does confirm the
no-persistence / no-state-change half.) -/
theorem c1_counterexample :
    handleMessage demoEnv 0 none [] (Inbound.parsed demoSendHi)
      = ⟨none, [], [], []⟩ := by
  rfl

/-- Claim C1 (amended): an unauthenticated connection sending any parsed
frame whose type is not `authenticate` (including `send_message` and
typing frames) has the frame silently discarded: no outbound frame is
sent, no persistence call occurs, and neither the registry nor the
connection's auth state changes. -/
theorem c1_unauth_frame_silently_discarded (env : Env) (self : ConnId)
    (reg : RegMap) (d : FrameData) (hty : d.type ≠ some "authenticate") :
    handleMessage env self none reg (Inbound.parsed d)
      = ⟨none, reg, [], []⟩ := by
  by_cases h2 : d.type = some "send_message"
  · simp only [handleMessage, if_neg hty, if_pos h2]
  · exact handleMessage_unrecognized env self none reg d hty h2

/-- Claim C1, witness: the amended theorem at an unauthenticated connection
sending a typing frame. -/
theorem c1_witness :
    handleMessage demoEnv 1 none [(hexB, 5)] (Inbound.parsed demoTypingStartFrame)
      = ⟨none, [(hexB, 5)], [], []⟩ :=
  c1_unauth_frame_silently_discarded demoEnv 1 [(hexB, 5)] demoTypingStartFrame
    (by decide)

/-- Claim C2, counterexample: identity `hexA` authenticates on connection 0,
then re-authenticates on connection 1 (registry now binds `hexA` to 1).
Connection 0 then closes, its `userId` field still `hexA`: the close
handler deletes by identity alone, so it removes connection 1's entry and
lookups for `hexA` no longer resolve to connection 1 — contradicting the
claim that closing the older connection "never removes B's entry". -/
theorem c2_counterexample :
    mapGet
      (handleClose
        (handleMessage demoEnv 0 none []
          (Inbound.parsed (authFrameData (some "tokA")))).userId
        (handleMessage demoEnv 1 none
          (handleMessage demoEnv 0 none []
            (Inbound.parsed (authFrameData (some "tokA")))).registry
          (Inbound.parsed (authFrameData (some "tokA")))).registry)
      hexA = none := by
  rfl

/-- Claim C2 (amended): when a connection closes with a truthy `userId`,
the registry entry for that identity is removed unconditionally — keyed by
the identity alone, with no check that the entry still holds this exact
connection — so after a re-authentication race the newer connection's
entry is removed too; a close with no bound identity leaves the registry
untouched. -/
theorem c2_close_removes_by_identity (uid : String) (reg : RegMap)
    (hu : uid ≠ "") (hwf : regWF reg) :
    mapGet (handleClose (some uid) reg) uid = none
    ∧ handleClose none reg = reg := by
  constructor
  · simp only [handleClose, if_neg hu]
    exact mapGet_mapDelete_self reg uid hwf
  · rfl

/-- Claim C2, witness: the amended theorem where the registry binds `hexA`
to connection 1 while the closing connection's `userId` is also `hexA`. -/
theorem c2_witness :
    mapGet (handleClose (some hexA) [(hexA, 1)]) hexA = none
    ∧ handleClose none [(hexA, 1)] = [(hexA, 1)] :=
  c2_close_removes_by_identity hexA [(hexA, 1)] (by decide) (by simp [regWF])

/-- Claim C3 (confirmed): the registry keeps at most one entry per user
identity — key uniqueness is preserved by every message-handler step and
by the close handler — and a successful `authenticate` for `uid` rebinds
the identity so that a lookup resolves to the authenticating connection
(last writer wins). -/
theorem c3_registry_at_most_one_entry (env : Env) (self : ConnId)
    (userId : Option String) (reg : RegMap) (inb : Inbound)
    (tok : Option String) (uid : String) (hwf : regWF reg) :
    regWF (handleMessage env self userId reg inb).registry
    ∧ regWF (handleClose userId reg)
    ∧ (env.verify tok = some uid →
        mapGet (handleMessage env self userId reg
          (Inbound.parsed (authFrameData tok))).registry uid = some self) := by
  refine ⟨?_, ?_, ?_⟩
  · cases inb with
    | parseFail => exact hwf
    | parsed d =>
      simp only [handleMessage]
      by_cases hty : d.type = some "authenticate"
      · rw [if_pos hty]
        cases henv : env.verify d.token with
        | some uid2 => exact regWF_mapSet reg uid2 self hwf
        | none => exact hwf
      · rw [if_neg hty]
        by_cases hty2 : d.type = some "send_message"
        · rw [if_pos hty2]
          cases userId with
          | some sid =>
            dsimp only
            by_cases hsid : sid = ""
            · rw [if_pos hsid]
              exact hwf
            · rw [if_neg hsid]
              rw [sendMessageBranch_registry]
              exact hwf
          | none => exact hwf
        · rw [if_neg hty2]
          exact hwf
  · cases userId with
    | some uid2 =>
      by_cases hu : uid2 = ""
      · simpa [handleClose, hu] using hwf
      · simp only [handleClose, if_neg hu]
        exact regWF_mapDelete reg uid2 hwf
    | none => exact hwf
  · intro hver
    simp only [handleMessage, authFrameData, if_pos rfl, hver]
    exact mapGet_mapSet_self reg uid self

/-- Claim C3, witness: connection 1 authenticates as `hexA`, which was
previously bound to connection 0; the registry stays single-entry per
identity and the lookup resolves to connection 1. -/
theorem c3_witness :
    regWF (handleMessage demoEnv 1 none [(hexA, 0)]
      (Inbound.parsed (authFrameData (some "tokA")))).registry
    ∧ regWF (handleClose none [(hexA, 0)])
    ∧ mapGet (handleMessage demoEnv 1 none [(hexA, 0)]
        (Inbound.parsed (authFrameData (some "tokA")))).registry hexA = some 1 := by
  have h := c3_registry_at_most_one_entry demoEnv 1 none [(hexA, 0)]
    (Inbound.parsed (authFrameData (some "tokA"))) (some "tokA") hexA
    (by simp [regWF])
  exact ⟨h.1, h.2.1, h.2.2 (by rfl)⟩

/-- Claim C4 (confirmed): a `send_message` frame from a connection bound to
sender `S`, with receiver `R`, both valid object-id strings. If persistence
succeeds with record `m`: exactly the attempted `createMessage` call is
made; the sends are exactly one `new_message{m}` to `R`'s registered
connection when `R` has a registry entry (and none anywhere otherwise),
followed by exactly one `message_sent{m}` acknowledgment to the sender's
own connection, unconditionally; the registry is untouched. If persistence
fails, no `message_sent` acknowledgment is produced — only the generic
error frame to the sender. -/
theorem c4_send_message_delivery (env : Env) (self : ConnId) (S R : String)
    (reg : RegMap) (d : FrameData) (m : StoredMessage)
    (hty : d.type = some "send_message") (hrid : d.receiverId = some R)
    (hS : S ≠ "") (hSok : env.objectIdOk S = true)
    (hRok : env.objectIdOk R = true) :
    (env.store (mdOf S R d) = some m →
      (handleMessage env self (some S) reg (Inbound.parsed d)).persisted
        = [mdOf S R d]
      ∧ (handleMessage env self (some S) reg (Inbound.parsed d)).sends
          = (match mapGet reg R with
             | some rc => [(rc, OutFrame.newMessage m), (self, OutFrame.messageSent m)]
             | none => [(self, OutFrame.messageSent m)])
      ∧ (handleMessage env self (some S) reg (Inbound.parsed d)).registry = reg)
    ∧ (env.store (mdOf S R d) = none →
        (handleMessage env self (some S) reg (Inbound.parsed d)).sends
          = [(self, OutFrame.error "Invalid message format")]
        ∧ (handleMessage env self (some S) reg (Inbound.parsed d)).persisted
            = [mdOf S R d]) := by
  have hne : d.type ≠ some "authenticate" := by
    rw [hty]
    decide
  have hmain : handleMessage env self (some S) reg (Inbound.parsed d)
      = sendMessageBranch env self S reg d := by
    simp only [handleMessage, if_neg hne, if_pos hty]
    rw [if_neg hS]
  constructor
  · intro hst
    rw [hmain]
    refine ⟨?_, ?_, ?_⟩
    · simp [sendMessageBranch, hSok, hrid, hRok, hst]
    · cases hg : mapGet reg R <;>
        simp [sendMessageBranch, hSok, hrid, hRok, hst, hg]
    · simp [sendMessageBranch, hSok, hrid, hRok, hst]
  · intro hst
    rw [hmain]
    refine ⟨?_, ?_⟩ <;> simp [sendMessageBranch, hSok, hrid, hRok, hst]

/-- Claim C4, witness: sender `hexA` on connection 0, receiver `hexB`
registered on connection 5; the store persists as `demoStored`; exactly one
`new_message` goes to connection 5 and one `message_sent` back to 0. -/
theorem c4_witness :
    (handleMessage demoEnv 0 (some hexA) [(hexB, 5)] (Inbound.parsed demoSendHi)).persisted
      = [mdOf hexA hexB demoSendHi]
    ∧ (handleMessage demoEnv 0 (some hexA) [(hexB, 5)] (Inbound.parsed demoSendHi)).sends
      = [(5, OutFrame.newMessage demoStored), (0, OutFrame.messageSent demoStored)]
    ∧ (handleMessage demoEnv 0 (some hexA) [(hexB, 5)] (Inbound.parsed demoSendHi)).registry
      = [(hexB, 5)] := by
  have h := (c4_send_message_delivery demoEnv 0 hexA hexB [(hexB, 5)] demoSendHi
    demoStored (by rfl) (by rfl) (by decide) (by decide) (by decide)).1 (by rfl)
  refine ⟨h.1, ?_, h.2.2⟩
  rw [h.2.1]
  rfl

/-- Claim C5, counterexample: an authenticated connection sends a
`send_message` frame whose content is whitespace only (`"   "`); the
collaborator store is nonetheless invoked, with the content passed through
untrimmed — contradicting the claim that such a frame is rejected before
any persistence call. -/
theorem c5_counterexample :
    (handleMessage demoEnv 0 (some hexA) [] (Inbound.parsed demoSendBlank)).persisted
      = [{ senderId := hexA, receiverId := hexB, conversationId := some "c1",
           content := some "   ", msgType := "text" }] := by
  rfl

/-- Claim C5 (amended): `send_message` content is never validated: for any
content whatsoever — empty, whitespace-only, or even absent — the
persistence call is attempted with the content exactly as received; no
trimming or emptiness check precedes it. -/
theorem c5_content_not_validated (env : Env) (self : ConnId) (S R : String)
    (reg : RegMap) (d : FrameData)
    (hty : d.type = some "send_message") (hrid : d.receiverId = some R)
    (hS : S ≠ "") (hSok : env.objectIdOk S = true)
    (hRok : env.objectIdOk R = true) :
    (handleMessage env self (some S) reg (Inbound.parsed d)).persisted
      = [mdOf S R d] := by
  have hne : d.type ≠ some "authenticate" := by
    rw [hty]
    decide
  simp only [handleMessage, if_neg hne, if_pos hty]
  rw [if_neg hS]
  cases hst : env.store (mdOf S R d) <;>
    simp [sendMessageBranch, hSok, hrid, hRok, hst]

/-- Claim C5, witness: the amended theorem at the whitespace-content frame. -/
theorem c5_witness :
    (handleMessage demoEnv 3 (some hexA) [] (Inbound.parsed demoSendBlank)).persisted
      = [mdOf hexA hexB demoSendBlank] :=
  c5_content_not_validated demoEnv 3 hexA hexB [] demoSendBlank
    (by rfl) (by rfl) (by decide) (by decide) (by decide)

/-- Claim C6 (confirmed): one broadcast call stringifies `{type, data}`
exactly once and pushes that identical string — one push per recipient, N
byte-identical payloads for N ready recipients — to precisely the
registered connections whose `readyState` is `OPEN`, in registry iteration
order; connections not in the ready state are skipped with no error. -/
theorem c6_broadcast_single_serialization (readyState : ConnId → Nat)
    (reg : RegMap) (type : String) (data : Json) :
    (broadcastToClients readyState reg type data).map Prod.snd
      = List.replicate
          (reg.filter (fun p => readyState p.2 == wsOPEN)).length
          (Json.stringify (Json.obj [("type", Json.str type), ("data", data)]))
    ∧ (broadcastToClients readyState reg type data).map Prod.fst
      = (reg.filter (fun p => readyState p.2 == wsOPEN)).map Prod.snd := by
  constructor
  · simp only [broadcastToClients, List.map_map]
    exact List.map_const _ _
  · simp only [broadcastToClients, List.map_map]
    rfl

/-- Claim C7, counterexample: an authenticated, registered connection sends
a parsed frame with the unrecognized type `"bogus"`; the handler replies
with NOTHING — no `error` frame is sent — contradicting the claim that the
originating connection receives exactly one `error` outbound frame. -/
theorem c7_counterexample :
    handleMessage demoEnv 0 (some hexA) [(hexA, 0)] (Inbound.parsed demoBogusFrame)
      = ⟨some hexA, [(hexA, 0)], [], []⟩ := by
  rfl

/-- Claim C7 (amended): a frame whose JSON parses but whose type is
unrecognized is silently ignored — no outbound frame, no persistence call,
no state change, so the connection remains usable exactly as before; only
a frame whose JSON does NOT parse produces the single
`{type:"error", message:"Invalid message format"}` frame. -/
theorem c7_unknown_type_ignored (env : Env) (self : ConnId)
    (userId : Option String) (reg : RegMap) (d : FrameData)
    (h1 : d.type ≠ some "authenticate") (h2 : d.type ≠ some "send_message") :
    handleMessage env self userId reg (Inbound.parsed d)
      = ⟨userId, reg, [], []⟩
    ∧ handleMessage env self userId reg Inbound.parseFail
      = ⟨userId, reg, [(self, OutFrame.error "Invalid message format")], []⟩ :=
  ⟨handleMessage_unrecognized env self userId reg d h1 h2, rfl⟩

/-- Claim C7, witness: the amended theorem at the `"bogus"`-typed frame on
an authenticated connection. -/
theorem c7_witness :
    handleMessage demoEnv 2 (some hexB) [(hexB, 2)] (Inbound.parsed demoBogusFrame)
      = ⟨some hexB, [(hexB, 2)], [], []⟩
    ∧ handleMessage demoEnv 2 (some hexB) [(hexB, 2)] Inbound.parseFail
      = ⟨some hexB, [(hexB, 2)], [(2, OutFrame.error "Invalid message format")], []⟩ :=
  c7_unknown_type_ignored demoEnv 2 (some hexB) [(hexB, 2)] demoBogusFrame
    (by decide) (by decide)

/-- Claim C8 (confirmed): an `authenticate` frame whose token fails
verification leaves the connection's auth state and the registry exactly as
they were, emits the single `authentication_error` frame to the
originating connection only, and a later `authenticate` with a verifiable
token still succeeds from that unchanged state (retry-capable). -/
theorem c8_auth_failure_no_state_change (env : Env) (self : ConnId)
    (userId : Option String) (reg : RegMap) (tok tok2 : Option String)
    (uid2 : String) (hv : env.verify tok = none) :
    handleMessage env self userId reg (Inbound.parsed (authFrameData tok))
      = ⟨userId, reg, [(self, OutFrame.authenticationError "Invalid token")], []⟩
    ∧ (env.verify tok2 = some uid2 →
        (handleMessage env self userId reg
          (Inbound.parsed (authFrameData tok2))).userId = some uid2
        ∧ mapGet (handleMessage env self userId reg
            (Inbound.parsed (authFrameData tok2))).registry uid2 = some self) := by
  constructor
  · simp [handleMessage, authFrameData, hv]
  · intro hv2
    constructor
    · simp [handleMessage, authFrameData, hv2]
    · simp only [handleMessage, authFrameData, if_pos rfl, hv2]
      exact mapGet_mapSet_self reg uid2 self

/-- Claim C8, witness: a failing token on connection 4, then a successful
retry with `tokB`. -/
theorem c8_witness :
    handleMessage demoEnv 4 none [] (Inbound.parsed (authFrameData (some "bad")))
      = ⟨none, [], [(4, OutFrame.authenticationError "Invalid token")], []⟩
    ∧ (handleMessage demoEnv 4 none []
        (Inbound.parsed (authFrameData (some "tokB")))).userId = some hexB
    ∧ mapGet (handleMessage demoEnv 4 none []
        (Inbound.parsed (authFrameData (some "tokB")))).registry hexB = some 4 := by
  have h := c8_auth_failure_no_state_change demoEnv 4 none [] (some "bad")
    (some "tokB") hexB (by rfl)
  exact ⟨h.1, (h.2 (by rfl)).1, (h.2 (by rfl)).2⟩

/-- Claim C9, counterexample: an authenticated connection (0, bound to
`hexA`) sends `typing_start` while the target `hexB` is registered live on
connection 5; the handler does NOTHING — nothing is forwarded to
connection 5 — contradicting the claim that typing frames are forwarded to
the target's live connection. -/
theorem c9_counterexample :
    handleMessage demoEnv 0 (some hexA) [(hexA, 0), (hexB, 5)]
      (Inbound.parsed demoTypingStartFrame)
      = ⟨some hexA, [(hexA, 0), (hexB, 5)], [], []⟩ := by
  rfl

/-- Claim C9 (amended): the handler has no branch for typing frames at all:
a `typing_start` or `typing_stop` frame, from any connection in any auth
state, is silently ignored — nothing is forwarded to anyone, no frame is
sent, and no server-side state changes or is retained. -/
theorem c9_typing_frames_ignored (env : Env) (self : ConnId)
    (userId : Option String) (reg : RegMap) (d : FrameData)
    (hty : d.type = some "typing_start" ∨ d.type = some "typing_stop") :
    handleMessage env self userId reg (Inbound.parsed d)
      = ⟨userId, reg, [], []⟩ := by
  cases hty with
  | inl h =>
    refine handleMessage_unrecognized env self userId reg d ?_ ?_ <;>
      rw [h] <;> decide
  | inr h =>
    refine handleMessage_unrecognized env self userId reg d ?_ ?_ <;>
      rw [h] <;> decide

/-- Claim C9, witness: the amended theorem at a `typing_stop` frame from an
authenticated connection with the target registered. -/
theorem c9_witness :
    handleMessage demoEnv 7 (some hexA) [(hexB, 5)]
      (Inbound.parsed demoTypingStopFrame)
      = ⟨some hexA, [(hexB, 5)], [], []⟩ :=
  c9_typing_frames_ignored demoEnv 7 (some hexA) [(hexB, 5)]
    demoTypingStopFrame (Or.inr (by rfl))

/-- Claim C10 (confirmed): a connection that authenticates as `A` and then
successfully re-authenticates as a different identity `B` keeps `A`'s
registry entry pointing at itself (only `ws.userId` is overwritten, the old
binding is never cleaned up); lookups for `A` still resolve to that
connection, and when the connection then closes, the close handler removes
only `B`'s entry — `A`'s entry survives, now pointing at the closed
connection. -/
theorem c10_stale_binding_after_rebind (env : Env) (self : ConnId)
    (userId : Option String) (reg : RegMap) (tokA tokB : Option String)
    (A B : String) (hwf : regWF reg)
    (hA : env.verify tokA = some A) (hB : env.verify tokB = some B)
    (hAB : A ≠ B) (hBne : B ≠ "") :
    mapGet (handleMessage env self
        (handleMessage env self userId reg (Inbound.parsed (authFrameData tokA))).userId
        (handleMessage env self userId reg (Inbound.parsed (authFrameData tokA))).registry
        (Inbound.parsed (authFrameData tokB))).registry A = some self
    ∧ (handleMessage env self
        (handleMessage env self userId reg (Inbound.parsed (authFrameData tokA))).userId
        (handleMessage env self userId reg (Inbound.parsed (authFrameData tokA))).registry
        (Inbound.parsed (authFrameData tokB))).userId = some B
    ∧ mapGet
        (handleClose
          (handleMessage env self
            (handleMessage env self userId reg (Inbound.parsed (authFrameData tokA))).userId
            (handleMessage env self userId reg (Inbound.parsed (authFrameData tokA))).registry
            (Inbound.parsed (authFrameData tokB))).userId
          (handleMessage env self
            (handleMessage env self userId reg (Inbound.parsed (authFrameData tokA))).userId
            (handleMessage env self userId reg (Inbound.parsed (authFrameData tokA))).registry
            (Inbound.parsed (authFrameData tokB))).registry)
        B = none
    ∧ mapGet
        (handleClose
          (handleMessage env self
            (handleMessage env self userId reg (Inbound.parsed (authFrameData tokA))).userId
            (handleMessage env self userId reg (Inbound.parsed (authFrameData tokA))).registry
            (Inbound.parsed (authFrameData tokB))).userId
          (handleMessage env self
            (handleMessage env self userId reg (Inbound.parsed (authFrameData tokA))).userId
            (handleMessage env self userId reg (Inbound.parsed (authFrameData tokA))).registry
            (Inbound.parsed (authFrameData tokB))).registry)
        A = some self := by
  have e1 : handleMessage env self userId reg (Inbound.parsed (authFrameData tokA))
      = ⟨some A, mapSet reg A self, [(self, OutFrame.authenticated true)], []⟩ := by
    simp [handleMessage, authFrameData, hA]
  rw [e1]
  have e2 : handleMessage env self (some A) (mapSet reg A self)
      (Inbound.parsed (authFrameData tokB))
      = ⟨some B, mapSet (mapSet reg A self) B self,
         [(self, OutFrame.authenticated true)], []⟩ := by
    simp [handleMessage, authFrameData, hB]
  rw [e2]
  have hwf2 : regWF (mapSet (mapSet reg A self) B self) :=
    regWF_mapSet _ B self (regWF_mapSet _ A self hwf)
  refine ⟨?_, rfl, ?_, ?_⟩
  · rw [mapGet_mapSet_ne _ B A self hAB]
    exact mapGet_mapSet_self reg A self
  · simp only [handleClose, if_neg hBne]
    exact mapGet_mapDelete_self _ B hwf2
  · simp only [handleClose, if_neg hBne]
    rw [mapGet_mapDelete_ne _ B A hAB, mapGet_mapSet_ne _ B A self hAB]
    exact mapGet_mapSet_self reg A self

/-- Claim C10, witness: connection 9 authenticates as `hexA` (token
`tokA`), then re-authenticates as `hexB` (token `tokB`), then closes:
`hexA` still resolves to connection 9 throughout, and only `hexB`'s entry
is removed by the close. -/
theorem c10_witness :
    mapGet (handleMessage demoEnv 9
        (handleMessage demoEnv 9 none [] (Inbound.parsed (authFrameData (some "tokA")))).userId
        (handleMessage demoEnv 9 none [] (Inbound.parsed (authFrameData (some "tokA")))).registry
        (Inbound.parsed (authFrameData (some "tokB")))).registry hexA = some 9
    ∧ (handleMessage demoEnv 9
        (handleMessage demoEnv 9 none [] (Inbound.parsed (authFrameData (some "tokA")))).userId
        (handleMessage demoEnv 9 none [] (Inbound.parsed (authFrameData (some "tokA")))).registry
        (Inbound.parsed (authFrameData (some "tokB")))).userId = some hexB
    ∧ mapGet
        (handleClose
          (handleMessage demoEnv 9
            (handleMessage demoEnv 9 none [] (Inbound.parsed (authFrameData (some "tokA")))).userId
            (handleMessage demoEnv 9 none [] (Inbound.parsed (authFrameData (some "tokA")))).registry
            (Inbound.parsed (authFrameData (some "tokB")))).userId
          (handleMessage demoEnv 9
            (handleMessage demoEnv 9 none [] (Inbound.parsed (authFrameData (some "tokA")))).userId
            (handleMessage demoEnv 9 none [] (Inbound.parsed (authFrameData (some "tokA")))).registry
            (Inbound.parsed (authFrameData (some "tokB")))).registry)
        hexB = none
    ∧ mapGet
        (handleClose
          (handleMessage demoEnv 9
            (handleMessage demoEnv 9 none [] (Inbound.parsed (authFrameData (some "tokA")))).userId
            (handleMessage demoEnv 9 none [] (Inbound.parsed (authFrameData (some "tokA")))).registry
            (Inbound.parsed (authFrameData (some "tokB")))).userId
          (handleMessage demoEnv 9
            (handleMessage demoEnv 9 none [] (Inbound.parsed (authFrameData (some "tokA")))).userId
            (handleMessage demoEnv 9 none [] (Inbound.parsed (authFrameData (some "tokA")))).registry
            (Inbound.parsed (authFrameData (some "tokB")))).registry)
        hexA = some 9 :=
  c10_stale_binding_after_rebind demoEnv 9 none [] (some "tokA") (some "tokB")
    hexA hexB (by simp [regWF]) (by rfl) (by rfl) (by decide) (by decide)
